import Mathlib

/-!
Verification of the NVMe controller lifecycle core
(`pkg/frontend/nvme_controller.go` of opi-marvell-bridge).

The Go code is shallowly embedded: Go pointers become `Option`, Go maps
become association lists, the backend RPC channel and the external
validation helpers become explicit function parameters, and each API
operation becomes a pure function from a server state and a request to a
result, a new server state, and the list of backend calls it issued.
A Go runtime panic (nil-pointer dereference) is a distinguished outcome.
-/

set_option maxHeartbeats 1000000

/-- PCIe placement of a controller (`pb.PciEndpoint`): port (domain),
physical function and virtual function identifiers, all int32 in Go. -/
structure PciEndpoint where
  portId : Int
  physicalFunction : Int
  virtualFunction : Int
deriving DecidableEq, Repr

/-- Reference to another resource by string key (`pb.ObjectKey`). -/
structure ObjectKey where
  value : String
deriving DecidableEq, Repr

/-- Controller spec (`pb.NvmeControllerSpec`).  `SubsystemId` and `PcieId`
are pointers in Go, so they are `Option` here. -/
structure NvmeControllerSpec where
  subsystemId : Option ObjectKey
  pcieId : Option PciEndpoint
  nvmeControllerId : Int
  maxNsq : Int
  maxNcq : Int
  sqes : Int
deriving DecidableEq, Repr

/-- Controller status (`pb.NvmeControllerStatus`). -/
structure NvmeControllerStatus where
  active : Bool
deriving DecidableEq, Repr

/-- Controller resource (`pb.NvmeController`).  `Spec` and `Status` are
pointers in Go, so they are `Option` here. -/
structure NvmeController where
  name : String
  spec : Option NvmeControllerSpec
  status : Option NvmeControllerStatus
deriving DecidableEq, Repr

/-- Subsystem spec: only the qualified name `Nqn` is read by this core. -/
structure NvmeSubsystemSpec where
  nqn : String
deriving DecidableEq, Repr

/-- Subsystem resource; owned by an external registry, only read here. -/
structure NvmeSubsystem where
  spec : NvmeSubsystemSpec
deriving DecidableEq, Repr

/-- Update mask (`fieldmaskpb.FieldMask`); only passed to the external
validator, never inspected by this core. -/
structure FieldMask where
  paths : List String
deriving DecidableEq, Repr

/-- Modelled from the spec: `models.MrvlNvmSubsysCreateCtrlrParams`
(package `pkg/models` is not part of the analysed sources).  Parameters of
the backend create-controller procedure: subsystem qualified name, PCIe
domain/function/virtual-function identifiers, requested controller id,
max submission/completion queue counts, and the queue-depth parameter. -/
structure MrvlNvmSubsysCreateCtrlrParams where
  subnqn : String
  pcieDomainID : Int
  pfID : Int
  vfID : Int
  ctrlrID : Int
  maxNsq : Int
  maxNcq : Int
  mqes : Int
deriving DecidableEq, Repr

/-- Modelled from the spec: result of the backend create-controller
procedure: a `Status` integer (zero meaning success) and the
backend-assigned controller id. -/
structure MrvlNvmSubsysCreateCtrlrResult where
  status : Int
  ctrlrID : Int
deriving DecidableEq, Repr

/-- Modelled from the spec: parameters of the backend remove-controller
procedure, with a forced/unconditional removal flag. -/
structure MrvlNvmSubsysRemoveCtrlrParams where
  subnqn : String
  ctrlrID : Int
  force : Int
deriving DecidableEq, Repr

/-- Modelled from the spec: result of the backend remove-controller
procedure. -/
structure MrvlNvmSubsysRemoveCtrlrResult where
  status : Int
deriving DecidableEq, Repr

/-- Modelled from the spec: parameters of the backend list procedure. -/
structure MrvlNvmSubsysGetCtrlrListParams where
  subnqn : String
deriving DecidableEq, Repr

/-- Modelled from the spec: one entry of the backend-returned controller
identifier list. -/
structure CtrlrIDEntry where
  ctrlrID : Int
deriving DecidableEq, Repr

/-- Modelled from the spec: result of the backend list procedure. -/
structure MrvlNvmSubsysGetCtrlrListResult where
  status : Int
  ctrlrIDList : List CtrlrIDEntry
deriving DecidableEq, Repr

/-- Modelled from the spec: parameters of the backend get-info
procedure. -/
structure MrvlNvmGetCtrlrInfoParams where
  subnqn : String
  ctrlrID : Int
deriving DecidableEq, Repr

/-- Modelled from the spec: result of the backend get-info procedure;
only the `Status` field is consumed by this core. -/
structure MrvlNvmGetCtrlrInfoResult where
  status : Int
deriving DecidableEq, Repr

/-- Modelled from the spec: parameters of the backend stats procedure. -/
structure MrvlNvmGetCtrlrStatsParams where
  subnqn : String
  ctrlrID : Int
deriving DecidableEq, Repr

/-- Modelled from the spec: result of the backend stats procedure, with
the six counters consumed by `NvmeControllerStats` (Go `int` fields). -/
structure MrvlNvmGetCtrlrStatsResult where
  status : Int
  numReadBytes : Int
  numReadCmds : Int
  numWriteBytes : Int
  numWriteCmds : Int
  totalReadLatencyInUs : Int
  totalWriteLatencyInUs : Int
deriving DecidableEq, Repr

/-- gRPC status codes used by this core. -/
inductive Code where
  | invalidArgument
  | notFound
deriving DecidableEq, Repr

/-- A Go `error` value as observed by callers: a gRPC status error
(`status.Error`/`status.Errorf`), a plain error (`fmt.Errorf`), or an
error produced by an external collaborator (validator or transport)
which this core propagates verbatim. -/
inductive GoError where
  | grpcStatus (code : Code) (msg : String)
  | generic (msg : String)
  | transport (msg : String)
deriving DecidableEq, Repr

/-- Outcome of one Go function call: a returned value, a returned error,
or a runtime panic (`crash` models the Go nil-pointer dereference
panic). -/
inductive GoResult (α : Type) where
  | ok (val : α)
  | err (e : GoError)
  | crash (msg : String)
deriving DecidableEq, Repr

/-- Whether a `GoResult` is a successful return. -/
def GoResult.isOk : GoResult α → Bool
  | .ok _ => true
  | _ => false

/-- One backend RPC invocation as issued through `s.rpc.Call`: the
procedure name string together with the typed parameter struct. -/
inductive BackendCall where
  | createCtrlr (proc : String) (p : MrvlNvmSubsysCreateCtrlrParams)
  | removeCtrlr (proc : String) (p : MrvlNvmSubsysRemoveCtrlrParams)
  | getCtrlrList (proc : String) (p : MrvlNvmSubsysGetCtrlrListParams)
  | getCtrlrInfo (proc : String) (p : MrvlNvmGetCtrlrInfoParams)
  | getCtrlrStats (proc : String) (p : MrvlNvmGetCtrlrStatsParams)
deriving DecidableEq, Repr

/-- The backend command-execution channel (`s.rpc`), typed by result
struct.  `Except.error` is a transport/serialization failure, propagated
verbatim by the core; `Except.ok` carries the deserialized result struct
whose `status` field is then interpreted. -/
structure Rpc where
  createCtrlr : String → MrvlNvmSubsysCreateCtrlrParams →
    Except GoError MrvlNvmSubsysCreateCtrlrResult
  removeCtrlr : String → MrvlNvmSubsysRemoveCtrlrParams →
    Except GoError MrvlNvmSubsysRemoveCtrlrResult
  getCtrlrList : String → MrvlNvmSubsysGetCtrlrListParams →
    Except GoError MrvlNvmSubsysGetCtrlrListResult
  getCtrlrInfo : String → MrvlNvmGetCtrlrInfoParams →
    Except GoError MrvlNvmGetCtrlrInfoResult
  getCtrlrStats : String → MrvlNvmGetCtrlrStatsParams →
    Except GoError MrvlNvmGetCtrlrStatsResult

/-- Association-list lookup, modelling Go map indexing `m[k]`. -/
def amLookup (m : List (String × α)) (k : String) : Option α :=
  match m with
  | [] => none
  | (k', v) :: rest => if k' = k then some v else amLookup rest k

/-- Association-list store, modelling Go map assignment `m[k] = v`. -/
def amInsert (m : List (String × α)) (k : String) (v : α) :
    List (String × α) :=
  match m with
  | [] => [(k, v)]
  | (k', v') :: rest =>
    if k' = k then (k, v) :: rest else (k', v') :: amInsert rest k v

/-- Association-list removal, modelling Go `delete(m, k)`. -/
def amErase (m : List (String × α)) (k : String) : List (String × α) :=
  match m with
  | [] => []
  | (k', v') :: rest =>
    if k' = k then rest else (k', v') :: amErase rest k

/-- The server state read and mutated by this core: the subsystem map
(read only here), the controller registry, and the pagination cursor
table mapping opaque tokens to resume offsets. -/
structure Server where
  subsystems : List (String × NvmeSubsystem)
  controllers : List (String × NvmeController)
  pagination : List (String × Int)
deriving DecidableEq, Repr

/-- External collaborators (validation helpers, id/uuid generation,
pagination extraction), assumed correct and modelled as caller-supplied
functions.  A validator returning `none` means the input passed. -/
structure Externals where
  validateRequiredFieldsCreate : Option NvmeController → String → Option GoError
  validateRequiredFieldsDelete : String → Bool → Option GoError
  validateRequiredFieldsUpdate : Option NvmeController → Option FieldMask → Bool → Option GoError
  validateRequiredFieldsList : String → Int → String → Option GoError
  validateRequiredFieldsGet : String → Option GoError
  validateRequiredFieldsStats : Option ObjectKey → Option GoError
  validateUserSettable : String → Option GoError
  resourcenameValidate : String → Option GoError
  fieldmaskValidate : Option FieldMask → Option NvmeController → Option GoError
  extractPagination : Int → String → List (String × Int) → Except GoError (Int × Int)
  newSystemGeneratedID : String
  newUUID : String

/-- Modelled from the spec: `server.ResourceIDToVolumeName` (external
helper of the opi-spdk-bridge server package) computes the canonical
resource name from the resolved resource ID. -/
def resourceIDToVolumeName (resourceID : String) : String :=
  "//storage.opiproject.org/volumes/" ++ resourceID

/-- Modelled from the spec: `server.LimitPagination` (external helper)
applies the resolved window [offset, offset+size) to a list and reports
whether elements remain beyond the window. -/
def limitPagination (l : List α) (offset size : Int) : List α × Bool :=
  let hasMore := offset + size < (l.length : Int)
  let stop := if hasMore then offset + size else (l.length : Int)
  ((l.drop offset.toNat).take (stop - offset).toNat, hasMore)

/-- Go conversion `int32(x)`: truncation of an integer to 32 bits with
two's-complement wrap-around. -/
def toInt32 (x : Int) : Int :=
  (x + 2 ^ 31) % 2 ^ 32 - 2 ^ 31

/-- The `models.MrvlNvmSubsysCreateCtrlrParams` literal built identically
by `CreateNvmeController` and `UpdateNvmeController` from the resolved
subsystem's qualified name and the request's spec. -/
def buildCtrlrParams (nqn : String) (spec : NvmeControllerSpec)
    (pcie : PciEndpoint) : MrvlNvmSubsysCreateCtrlrParams :=
  { subnqn := nqn
    pcieDomainID := pcie.portId
    pfID := pcie.physicalFunction
    vfID := pcie.virtualFunction
    ctrlrID := spec.nvmeControllerId
    maxNsq := spec.maxNsq
    maxNcq := spec.maxNcq
    mqes := spec.sqes }

/-- Request of `CreateNvmeController`. -/
structure CreateNvmeControllerRequest where
  nvmeController : Option NvmeController
  nvmeControllerId : String
deriving DecidableEq, Repr

/-- Request of `DeleteNvmeController`. -/
structure DeleteNvmeControllerRequest where
  name : String
  allowMissing : Bool
deriving DecidableEq, Repr

/-- Request of `UpdateNvmeController`. -/
structure UpdateNvmeControllerRequest where
  nvmeController : Option NvmeController
  updateMask : Option FieldMask
  allowMissing : Bool
deriving DecidableEq, Repr

/-- Request of `ListNvmeControllers`. -/
structure ListNvmeControllersRequest where
  parent : String
  pageSize : Int
  pageToken : String
deriving DecidableEq, Repr

/-- Response of `ListNvmeControllers`.  The Go code constructs it with
only the `NvmeControllers` field, so `nextPageToken` keeps its zero
value (the empty string) on every path. -/
structure ListNvmeControllersResponse where
  nvmeControllers : List NvmeController
  nextPageToken : String
deriving DecidableEq, Repr

/-- Request of `GetNvmeController`. -/
structure GetNvmeControllerRequest where
  name : String
deriving DecidableEq, Repr

/-- Request of `NvmeControllerStats`; `Id` is a pointer in Go. -/
structure NvmeControllerStatsRequest where
  id : Option ObjectKey
deriving DecidableEq, Repr

/-- Statistics payload (`pb.VolumeStats`), int32 fields in Go. -/
structure VolumeStats where
  readBytesCount : Int
  readOpsCount : Int
  writeBytesCount : Int
  writeOpsCount : Int
  readLatencyTicks : Int
  writeLatencyTicks : Int
deriving DecidableEq, Repr

/-- Response of `NvmeControllerStats`. -/
structure NvmeControllerStatsResponse where
  stats : VolumeStats
deriving DecidableEq, Repr

/-- Outcome of one API operation: the Go return value or error or panic,
the server state after the call, and the backend calls issued. -/
abbrev Outcome (α : Type) := GoResult α × Server × List BackendCall

/-- The Go nil-pointer dereference panic message. -/
def nilDeref : String :=
  "runtime error: invalid memory address or nil pointer dereference"

/-- Resolution of the resource ID in `CreateNvmeController` (lines
49-58): a system-generated ID unless the client supplied one, which must
then pass the user-settable-ID validation. -/
def resolveResourceID (ext : Externals) (reqID : String) :
    Except GoError String :=
  if reqID = "" then .ok ext.newSystemGeneratedID
  else
    match ext.validateUserSettable reqID with
    | some e => .error e
    | none => .ok reqID

/-- Sort key used by `sortNvmeControllers`: the controller id of the
spec.  Go dereferences `Spec` unconditionally; at the only call site
every element carries a non-nil spec, so the `none` default is never
observed. -/
def ctrlKey (c : NvmeController) : Int :=
  (c.spec.map (fun sp => sp.nvmeControllerId)).getD 0

/-- The ordering on controllers used by `sortNvmeControllers`. -/
def ctrlLe (a b : NvmeController) : Prop := ctrlKey a ≤ ctrlKey b

instance instDecCtrlLe : DecidableRel ctrlLe :=
  fun a b => (inferInstance : Decidable (ctrlKey a ≤ ctrlKey b))

instance instTotalCtrlLe : IsTotal NvmeController ctrlLe :=
  ⟨fun a b => Int.le_total (ctrlKey a) (ctrlKey b)⟩

instance instTransCtrlLe : IsTrans NvmeController ctrlLe :=
  ⟨fun _ _ _ hab hbc => Int.le_trans hab hbc⟩

/-- Embedding of `sortNvmeControllers` (Go `sort.Slice` with the strict
comparator on `Spec.NvmeControllerId`).  `sort.Slice` guarantees only
some permutation ordered by the comparator; this embedding fixes
insertion sort.  At the only call site every element is an id-only
controller (`mkListCtrl`), for which the ordered permutation is unique
(lemma `sorted_perm_eq_of_listCtrls`), so the choice of algorithm does
not change the observable result. -/
def sortNvmeControllers (controllers : List NvmeController) :
    List NvmeController :=
  List.insertionSort ctrlLe controllers

/-- The minimal controller object built by `ListNvmeControllers` for one
backend-returned identifier: only the controller id is set, every other
field keeps its Go zero value. -/
def mkListCtrl (n : Int) : NvmeController :=
  { name := ""
    spec := some { subsystemId := none, pcieId := none,
                   nvmeControllerId := n, maxNsq := 0, maxNcq := 0,
                   sqes := 0 }
    status := none }

/-- The `InvalidArgument` error of `CreateNvmeController` line 46. -/
def invalidSubsysErr : GoError :=
  .grpcStatus .invalidArgument "invalid input subsystem parameters"

/-- Embedding of `CreateNvmeController` (lines 37-101). -/
def createNvmeController (ext : Externals) (rpc : Rpc) (s : Server)
    (req : CreateNvmeControllerRequest) : Outcome NvmeController :=
  match ext.validateRequiredFieldsCreate req.nvmeController req.nvmeControllerId with
  | some e => (.err e, s, [])
  | none =>
    match req.nvmeController with
    | none => (.crash nilDeref, s, [])
    | some ctrl =>
      match ctrl.spec with
      | none => (.err invalidSubsysErr, s, [])
      | some spec =>
        match spec.subsystemId with
        | none => (.err invalidSubsysErr, s, [])
        | some subsysId =>
          if subsysId.value = "" then (.err invalidSubsysErr, s, [])
          else
            match resolveResourceID ext req.nvmeControllerId with
            | .error e => (.err e, s, [])
            | .ok resourceID =>
              let name := resourceIDToVolumeName resourceID
              match amLookup s.controllers name with
              | some controller => (.ok controller, s, [])
              | none =>
                match amLookup s.subsystems subsysId.value with
                | none =>
                  (.err (.grpcStatus .notFound
                    ("unable to find key " ++ subsysId.value)), s, [])
                | some subsys =>
                  match spec.pcieId with
                  | none => (.crash nilDeref, s, [])
                  | some pcie =>
                    let params := buildCtrlrParams subsys.spec.nqn spec pcie
                    let calls :=
                      [BackendCall.createCtrlr "mrvl_nvm_subsys_create_ctrlr" params]
                    match rpc.createCtrlr "mrvl_nvm_subsys_create_ctrlr" params with
                    | .error e => (.err e, s, calls)
                    | .ok result =>
                      if result.status ≠ 0 then
                        (.err (.grpcStatus .invalidArgument
                          ("Could not create CTRL: " ++ name)), s, calls)
                      else
                        let response : NvmeController :=
                          { name := name
                            spec := some { spec with
                              nvmeControllerId := toInt32 result.ctrlrID }
                            status := some { active := true } }
                        (.ok response,
                         { s with controllers := amInsert s.controllers name response },
                         calls)

/-- Embedding of `DeleteNvmeController` (lines 104-150). -/
def deleteNvmeController (ext : Externals) (rpc : Rpc) (s : Server)
    (req : DeleteNvmeControllerRequest) : Outcome Unit :=
  match ext.validateRequiredFieldsDelete req.name req.allowMissing with
  | some e => (.err e, s, [])
  | none =>
    match ext.resourcenameValidate req.name with
    | some e => (.err e, s, [])
    | none =>
      match amLookup s.controllers req.name with
      | none =>
        if req.allowMissing then (.ok (), s, [])
        else (.err (.generic ("error finding controller " ++ req.name)), s, [])
      | some controller =>
        match controller.spec with
        | none => (.crash nilDeref, s, [])
        | some cspec =>
          match cspec.subsystemId with
          | none => (.crash nilDeref, s, [])
          | some key =>
            match amLookup s.subsystems key.value with
            | none =>
              (.err (.grpcStatus .notFound
                ("unable to find key " ++ key.value)), s, [])
            | some subsys =>
              let params : MrvlNvmSubsysRemoveCtrlrParams :=
                { subnqn := subsys.spec.nqn
                  ctrlrID := cspec.nvmeControllerId
                  force := 1 }
              let calls :=
                [BackendCall.removeCtrlr "mrvl_nvm_subsys_remove_ctrlr" params]
              match rpc.removeCtrlr "mrvl_nvm_subsys_remove_ctrlr" params with
              | .error e => (.err e, s, calls)
              | .ok result =>
                if result.status ≠ 0 then
                  (.err (.grpcStatus .invalidArgument
                    ("Could not delete CTRL: " ++ controller.name)), s, calls)
                else
                  (.ok (),
                   { s with controllers := amErase s.controllers controller.name },
                   calls)

/-- Embedding of `UpdateNvmeController` (lines 153-215).  Note the
backend procedure name passed to `rpc.Call` at line 199 is
`mrvl_nvm_subsys_update_ctrlr`, with the parameter and result struct
types of the create procedure. -/
def updateNvmeController (ext : Externals) (rpc : Rpc) (s : Server)
    (req : UpdateNvmeControllerRequest) : Outcome NvmeController :=
  match ext.validateRequiredFieldsUpdate req.nvmeController req.updateMask req.allowMissing with
  | some e => (.err e, s, [])
  | none =>
    match req.nvmeController with
    | none => (.crash nilDeref, s, [])
    | some ctrl =>
      match ext.resourcenameValidate ctrl.name with
      | some e => (.err e, s, [])
      | none =>
        match amLookup s.controllers ctrl.name with
        | none =>
          (.err (.grpcStatus .notFound
            ("unable to find key " ++ ctrl.name)), s, [])
        | some _volume =>
          match ext.fieldmaskValidate req.updateMask (some ctrl) with
          | some e => (.err e, s, [])
          | none =>
            match ctrl.spec with
            | none => (.crash nilDeref, s, [])
            | some spec =>
              match spec.subsystemId with
              | none => (.crash nilDeref, s, [])
              | some key =>
                match amLookup s.subsystems key.value with
                | none =>
                  (.err (.grpcStatus .notFound
                    ("unable to find key " ++ key.value)), s, [])
                | some subsys =>
                  match spec.pcieId with
                  | none => (.crash nilDeref, s, [])
                  | some pcie =>
                    let params := buildCtrlrParams subsys.spec.nqn spec pcie
                    let calls :=
                      [BackendCall.createCtrlr "mrvl_nvm_subsys_update_ctrlr" params]
                    match rpc.createCtrlr "mrvl_nvm_subsys_update_ctrlr" params with
                    | .error e => (.err e, s, calls)
                    | .ok result =>
                      if result.status ≠ 0 then
                        (.err (.grpcStatus .invalidArgument
                          ("Could not update CTRL: " ++ ctrl.name)), s, calls)
                      else
                        let response : NvmeController :=
                          { name := ctrl.name
                            spec := some { spec with
                              nvmeControllerId := toInt32 result.ctrlrID }
                            status := some { active := true } }
                        (.ok response,
                         { s with controllers := amInsert s.controllers ctrl.name response },
                         calls)

/-- Embedding of `ListNvmeControllers` (lines 218-266).  The Go code
computes a fresh token and records the resume offset under it when
elements remain beyond the window, but the response literal at line 265
sets only `NvmeControllers`, so the returned `NextPageToken` is always
the empty string. -/
def listNvmeControllers (ext : Externals) (rpc : Rpc) (s : Server)
    (req : ListNvmeControllersRequest) : Outcome ListNvmeControllersResponse :=
  match ext.validateRequiredFieldsList req.parent req.pageSize req.pageToken with
  | some e => (.err e, s, [])
  | none =>
    match ext.extractPagination req.pageSize req.pageToken s.pagination with
    | .error perr => (.err perr, s, [])
    | .ok (size, offset) =>
      match amLookup s.subsystems req.parent with
      | none =>
        (.err (.grpcStatus .notFound
          ("unable to find key " ++ req.parent)), s, [])
      | some subsys =>
        let params : MrvlNvmSubsysGetCtrlrListParams := { subnqn := subsys.spec.nqn }
        let calls :=
          [BackendCall.getCtrlrList "mrvl_nvm_subsys_get_ctrlr_list" params]
        match rpc.getCtrlrList "mrvl_nvm_subsys_get_ctrlr_list" params with
        | .error e => (.err e, s, calls)
        | .ok result =>
          if result.status ≠ 0 then
            (.err (.grpcStatus .invalidArgument
              ("Could not list CTRLs: " ++ req.parent)), s, calls)
          else
            let lp := limitPagination result.ctrlrIDList offset size
            let s' :=
              if lp.2 then
                { s with pagination := amInsert s.pagination ext.newUUID (offset + size) }
              else s
            let blobarray := lp.1.map (fun r => mkListCtrl (toInt32 r.ctrlrID))
            (.ok { nvmeControllers := sortNvmeControllers blobarray
                   nextPageToken := "" },
             s', calls)

/-- Embedding of `GetNvmeController` (lines 269-311). -/
def getNvmeController (ext : Externals) (rpc : Rpc) (s : Server)
    (req : GetNvmeControllerRequest) : Outcome NvmeController :=
  match ext.validateRequiredFieldsGet req.name with
  | some e => (.err e, s, [])
  | none =>
    match ext.resourcenameValidate req.name with
    | some e => (.err e, s, [])
    | none =>
      match amLookup s.controllers req.name with
      | none => (.err (.generic ("error finding controller " ++ req.name)), s, [])
      | some controller =>
        match controller.spec with
        | none => (.crash nilDeref, s, [])
        | some cspec =>
          match cspec.subsystemId with
          | none => (.crash nilDeref, s, [])
          | some key =>
            match amLookup s.subsystems key.value with
            | none =>
              (.err (.grpcStatus .notFound
                ("unable to find key " ++ key.value)), s, [])
            | some subsys =>
              let params : MrvlNvmGetCtrlrInfoParams :=
                { subnqn := subsys.spec.nqn
                  ctrlrID := cspec.nvmeControllerId }
              let calls :=
                [BackendCall.getCtrlrInfo "mrvl_nvm_ctrlr_get_info" params]
              match rpc.getCtrlrInfo "mrvl_nvm_ctrlr_get_info" params with
              | .error e => (.err e, s, calls)
              | .ok result =>
                if result.status ≠ 0 then
                  (.err (.grpcStatus .invalidArgument
                    ("Could not get CTRL: " ++ req.name)), s, calls)
                else
                  (.ok { name := req.name
                         spec := some { subsystemId := none, pcieId := none,
                                        nvmeControllerId := cspec.nvmeControllerId,
                                        maxNsq := 0, maxNcq := 0, sqes := 0 }
                         status := some { active := true } },
                   s, calls)

/-- Embedding of `NvmeControllerStats` (lines 314-362). -/
def nvmeControllerStats (ext : Externals) (rpc : Rpc) (s : Server)
    (req : NvmeControllerStatsRequest) : Outcome NvmeControllerStatsResponse :=
  match ext.validateRequiredFieldsStats req.id with
  | some e => (.err e, s, [])
  | none =>
    match req.id with
    | none => (.crash nilDeref, s, [])
    | some key =>
      match ext.resourcenameValidate key.value with
      | some e => (.err e, s, [])
      | none =>
        match amLookup s.controllers key.value with
        | none => (.err (.generic ("error finding controller " ++ key.value)), s, [])
        | some controller =>
          match controller.spec with
          | none => (.crash nilDeref, s, [])
          | some cspec =>
            match cspec.subsystemId with
            | none => (.crash nilDeref, s, [])
            | some skey =>
              match amLookup s.subsystems skey.value with
              | none =>
                (.err (.grpcStatus .notFound
                  ("unable to find key " ++ skey.value)), s, [])
              | some subsys =>
                let params : MrvlNvmGetCtrlrStatsParams :=
                  { subnqn := subsys.spec.nqn
                    ctrlrID := cspec.nvmeControllerId }
                let calls :=
                  [BackendCall.getCtrlrStats "mrvl_nvm_get_ctrlr_stats" params]
                match rpc.getCtrlrStats "mrvl_nvm_get_ctrlr_stats" params with
                | .error e => (.err e, s, calls)
                | .ok result =>
                  if result.status ≠ 0 then
                    (.err (.grpcStatus .invalidArgument
                      ("Could not stats CTRL: " ++ key.value)), s, calls)
                  else
                    (.ok { stats :=
                      { readBytesCount := toInt32 result.numReadBytes
                        readOpsCount := toInt32 result.numReadCmds
                        writeBytesCount := toInt32 result.numWriteBytes
                        writeOpsCount := toInt32 result.numWriteCmds
                        readLatencyTicks := toInt32 result.totalReadLatencyInUs
                        writeLatencyTicks := toInt32 result.totalWriteLatencyInUs } },
                     s, calls)

/-- Whether a `GoResult` is a returned error or a panic (any outcome
other than a successful return). -/
def GoResult.isFailure : GoResult α → Bool
  | .ok _ => false
  | _ => true

/-- An operation outcome fails cleanly when any non-`ok` result leaves
the server state exactly as it was before the call. -/
def FailsClean (o : Outcome α) (s : Server) : Prop :=
  o.1.isFailure = true → o.2.1 = s

/-- A backend whose every procedure completes without transport error
and reports a non-zero application status. -/
def NonzeroStatus (rpc : Rpc) : Prop :=
  (∀ n p, ∃ r, rpc.createCtrlr n p = .ok r ∧ r.status ≠ 0) ∧
  (∀ n p, ∃ r, rpc.removeCtrlr n p = .ok r ∧ r.status ≠ 0) ∧
  (∀ n p, ∃ r, rpc.getCtrlrList n p = .ok r ∧ r.status ≠ 0) ∧
  (∀ n p, ∃ r, rpc.getCtrlrInfo n p = .ok r ∧ r.status ≠ 0) ∧
  (∀ n p, ∃ r, rpc.getCtrlrStats n p = .ok r ∧ r.status ≠ 0)

/-- Externals instance for concrete runs: every validator passes, the
pagination helper resolves to size 2 at offset 0, and the generators
return fixed fresh strings. -/
def extOk : Externals :=
  { validateRequiredFieldsCreate := fun _ _ => none
    validateRequiredFieldsDelete := fun _ _ => none
    validateRequiredFieldsUpdate := fun _ _ _ => none
    validateRequiredFieldsList := fun _ _ _ => none
    validateRequiredFieldsGet := fun _ => none
    validateRequiredFieldsStats := fun _ => none
    validateUserSettable := fun _ => none
    resourcenameValidate := fun _ => none
    fieldmaskValidate := fun _ _ => none
    extractPagination := fun _ _ _ => Except.ok (2, 0)
    newSystemGeneratedID := "sysgen"
    newUUID := "uuid-fresh-1" }

/-- Backend instance for concrete runs: every procedure succeeds with
status 0; create assigns controller id 5; list returns ids 2, 1, 2;
stats returns the counters of the spec scenario. -/
def rpcOk : Rpc :=
  { createCtrlr := fun _ _ => .ok { status := 0, ctrlrID := 5 }
    removeCtrlr := fun _ _ => .ok { status := 0 }
    getCtrlrList := fun _ _ => .ok { status := 0, ctrlrIDList := [⟨2⟩, ⟨1⟩, ⟨2⟩] }
    getCtrlrInfo := fun _ _ => .ok { status := 0 }
    getCtrlrStats := fun _ _ => .ok
      { status := 0
        numReadBytes := 1024
        numReadCmds := 4
        numWriteBytes := 8
        numWriteCmds := 2
        totalReadLatencyInUs := 10
        totalWriteLatencyInUs := 20 } }

/-- Backend instance whose every procedure reports status 1. -/
def rpcBad : Rpc :=
  { createCtrlr := fun _ _ => .ok { status := 1, ctrlrID := 0 }
    removeCtrlr := fun _ _ => .ok { status := 1 }
    getCtrlrList := fun _ _ => .ok { status := 1, ctrlrIDList := [] }
    getCtrlrInfo := fun _ _ => .ok { status := 1 }
    getCtrlrStats := fun _ _ => .ok
      { status := 1
        numReadBytes := 0
        numReadCmds := 0
        numWriteBytes := 0
        numWriteCmds := 0
        totalReadLatencyInUs := 0
        totalWriteLatencyInUs := 0 } }

/-- A concrete subsystem. -/
def subsys0 : NvmeSubsystem := { spec := { nqn := "nqn.2022-09.io.spdk:opitest0" } }

/-- A concrete PCIe placement. -/
def pcie0 : PciEndpoint := { portId := 0, physicalFunction := 1, virtualFunction := 0 }

/-- A concrete controller spec referencing subsystem key `subsys0`. -/
def spec0 : NvmeControllerSpec :=
  { subsystemId := some { value := "subsys0" }
    pcieId := some pcie0
    nvmeControllerId := 1
    maxNsq := 4
    maxNcq := 4
    sqes := 6 }

/-- The canonical name computed for resource ID `ctrl-id-0`. -/
def ctrl0name : String := resourceIDToVolumeName "ctrl-id-0"

/-- A concrete stored controller under `ctrl0name`. -/
def ctrl0 : NvmeController :=
  { name := ctrl0name, spec := some spec0, status := some { active := true } }

/-- State: subsystem present, no controllers. -/
def s0 : Server :=
  { subsystems := [("subsys0", subsys0)], controllers := [], pagination := [] }

/-- State: subsystem present, `ctrl0` stored. -/
def s1 : Server :=
  { subsystems := [("subsys0", subsys0)], controllers := [(ctrl0name, ctrl0)], pagination := [] }

/-- State: `ctrl0` stored but its subsystem missing from the map. -/
def sNoSub : Server :=
  { subsystems := [], controllers := [(ctrl0name, ctrl0)], pagination := [] }

/-- Create request with explicit resource ID `ctrl-id-0` and spec
`spec0`. -/
def reqC : CreateNvmeControllerRequest :=
  { nvmeController := some { name := "", spec := some spec0, status := none }
    nvmeControllerId := "ctrl-id-0" }

/-- `spec0` with a dangling subsystem reference `ghost`. -/
def specGhost : NvmeControllerSpec :=
  { spec0 with subsystemId := some { value := "ghost" } }

/-- Create request with explicit ID `ctrl-id-0` but a dangling
subsystem reference. -/
def reqCGhost : CreateNvmeControllerRequest :=
  { nvmeController := some { name := "", spec := some specGhost, status := none }
    nvmeControllerId := "ctrl-id-0" }

/-- `spec0` with a nil `PcieId`. -/
def specNoPcie : NvmeControllerSpec := { spec0 with pcieId := none }

/-- Create request with explicit ID `ctrl-id-0` and a nil `PcieId`. -/
def reqCNoPcie : CreateNvmeControllerRequest :=
  { nvmeController := some { name := "", spec := some specNoPcie, status := none }
    nvmeControllerId := "ctrl-id-0" }

/-- Create request with a fresh ID `ctrl-id-9` and a nil `PcieId`. -/
def reqCNoPcieFresh : CreateNvmeControllerRequest :=
  { nvmeController := some { name := "", spec := some specNoPcie, status := none }
    nvmeControllerId := "ctrl-id-9" }

/-- Update request payload named `ctrl0name` with a dangling subsystem
reference and a nil `PcieId`. -/
def uctrlGhostNoPcie : NvmeController :=
  { name := ctrl0name
    spec := some { specGhost with pcieId := none }
    status := none }

/-- Update payload named `ctrl0name` with a nil spec. -/
def uctrlNilSpec : NvmeController :=
  { name := ctrl0name, spec := none, status := none }

/-- Update payload named `ctrl0name` with a nil subsystem reference. -/
def uctrlNilKey : NvmeController :=
  { name := ctrl0name, spec := some { spec0 with subsystemId := none }, status := none }

/-- Update payload named `ctrl0name` with a nil `PcieId` and a
resolvable subsystem reference. -/
def uctrlNilPcie : NvmeController :=
  { name := ctrl0name, spec := some specNoPcie, status := none }

/-- The controller payload of `reqC`. -/
def ctrlC : NvmeController := { name := "", spec := some spec0, status := none }

/-- List request for parent `subsys0`. -/
def reqL : ListNvmeControllersRequest :=
  { parent := "subsys0", pageSize := 2, pageToken := "" }

/-- Storing under a key makes that key resolve to the stored value. -/
theorem amLookup_amInsert_self (m : List (String × α)) (k : String) (v : α) :
    amLookup (amInsert m k v) k = some v := by
  induction m with
  | nil => simp [amInsert, amLookup]
  | cons p rest ih =>
    obtain ⟨k', v'⟩ := p
    by_cases h : k' = k
    · simp [amInsert, amLookup, h]
    · simp [amInsert, amLookup, h, ih]

/-- The embedded sort returns a list ordered by controller id. -/
theorem sorted_sortNvmeControllers (l : List NvmeController) :
    List.Sorted ctrlLe (sortNvmeControllers l) :=
  List.sorted_insertionSort ctrlLe l

/-- The embedded sort returns a permutation of its input. -/
theorem perm_sortNvmeControllers (l : List NvmeController) :
    (sortNvmeControllers l).Perm l :=
  List.perm_insertionSort ctrlLe l

/-- The sort key of an id-only controller is its id. -/
theorem ctrlKey_mkListCtrl (n : Int) : ctrlKey (mkListCtrl n) = n := rfl

/-- An id-only controller is determined by its sort key. -/
theorem mkListCtrl_ctrlKey {c : NvmeController} (h : ∃ n, c = mkListCtrl n) :
    mkListCtrl (ctrlKey c) = c := by
  obtain ⟨n, rfl⟩ := h
  rfl

/-- A list of id-only controllers is recovered from its key list. -/
theorem map_mkListCtrl_keys {l : List NvmeController}
    (h : ∀ c ∈ l, ∃ n, c = mkListCtrl n) :
    (l.map ctrlKey).map mkListCtrl = l := by
  induction l with
  | nil => rfl
  | cons c cs ih =>
    simp only [List.map_cons]
    rw [mkListCtrl_ctrlKey (h c (List.mem_cons_self c cs)),
        ih (fun d hd => h d (List.mem_cons_of_mem c hd))]

/-- A list sorted by `ctrlLe` has a key list sorted by `≤`. -/
theorem sorted_keys_of_sorted {l : List NvmeController}
    (h : List.Sorted ctrlLe l) :
    List.Sorted (fun a b : Int => a ≤ b) (l.map ctrlKey) :=
  List.pairwise_map.mpr h

/-- On lists of id-only controllers the ordered permutation is unique:
any permutation of such a list that is sorted by controller id is the
list itself.  This is what makes the embedding of Go's unstable
`sort.Slice` by insertion sort behavior-preserving at its only call
site, and makes the sort trivially stable there: elements with equal
ids are equal objects. -/
theorem sorted_perm_eq_of_listCtrls {l1 l2 : List NvmeController}
    (hshape : ∀ c ∈ l2, ∃ n, c = mkListCtrl n)
    (hp : l1.Perm l2) (h1 : List.Sorted ctrlLe l1)
    (h2 : List.Sorted ctrlLe l2) : l1 = l2 := by
  have hshape1 : ∀ c ∈ l1, ∃ n, c = mkListCtrl n := fun c hc => hshape c (hp.subset hc)
  have hkeys : l1.map ctrlKey = l2.map ctrlKey :=
    List.eq_of_perm_of_sorted (hp.map ctrlKey)
      (sorted_keys_of_sorted h1) (sorted_keys_of_sorted h2)
  calc l1 = (l1.map ctrlKey).map mkListCtrl := (map_mkListCtrl_keys hshape1).symm
    _ = (l2.map ctrlKey).map mkListCtrl := by rw [hkeys]
    _ = l2 := map_mkListCtrl_keys hshape

/-- Inversion of a successful `ListNvmeControllers` run: the validators
passed, pagination resolved, the subsystem resolved, the backend call
succeeded with status zero, and the response, state and trace are the
ones built on the success path. -/
theorem listNvmeControllers_ok {ext : Externals} {rpc : Rpc} {s : Server}
    {req : ListNvmeControllersRequest} {resp : ListNvmeControllersResponse}
    {s' : Server} {tr : List BackendCall}
    (h : listNvmeControllers ext rpc s req = (.ok resp, s', tr)) :
    ∃ size offset result subsys,
      ext.validateRequiredFieldsList req.parent req.pageSize req.pageToken = none ∧
      ext.extractPagination req.pageSize req.pageToken s.pagination = .ok (size, offset) ∧
      amLookup s.subsystems req.parent = some subsys ∧
      rpc.getCtrlrList "mrvl_nvm_subsys_get_ctrlr_list" { subnqn := subsys.spec.nqn } =
        .ok result ∧
      result.status = 0 ∧
      resp = { nvmeControllers := sortNvmeControllers
                 ((limitPagination result.ctrlrIDList offset size).1.map
                   (fun r => mkListCtrl (toInt32 r.ctrlrID)))
               nextPageToken := "" } ∧
      s' = (if (limitPagination result.ctrlrIDList offset size).2 then
              { s with pagination := amInsert s.pagination ext.newUUID (offset + size) }
            else s) ∧
      tr = [BackendCall.getCtrlrList "mrvl_nvm_subsys_get_ctrlr_list"
              { subnqn := subsys.spec.nqn }] := by
  unfold listNvmeControllers at h
  rcases hv : ext.validateRequiredFieldsList req.parent req.pageSize req.pageToken with _ | e
  case some => simp [hv] at h
  simp only [hv] at h
  rcases hp : ext.extractPagination req.pageSize req.pageToken s.pagination with e | p
  case error => simp [hp] at h
  obtain ⟨size, offset⟩ := p
  simp only [hp] at h
  rcases hsub : amLookup s.subsystems req.parent with _ | subsys
  case none => simp [hsub] at h
  simp only [hsub] at h
  rcases hres : rpc.getCtrlrList "mrvl_nvm_subsys_get_ctrlr_list" { subnqn := subsys.spec.nqn }
    with e | result
  case error => simp [hres] at h
  simp only [hres] at h
  by_cases hst : result.status = 0
  · rw [if_neg (by simp [hst])] at h
    simp only [Prod.mk.injEq, GoResult.ok.injEq] at h
    obtain ⟨hresp, hs', htr⟩ := h
    exact ⟨size, offset, result, subsys, rfl, rfl, rfl, hres, hst,
      hresp.symm, hs'.symm, htr.symm⟩
  · rw [if_pos hst] at h
    simp at h

/-- Claim C1 (amended): for every Update on an existing controller with
a resolvable subsystem, the backend procedure invoked is the one named
`mrvl_nvm_subsys_update_ctrlr` — not Create's
`mrvl_nvm_subsys_create_ctrlr` as the claim states — carrying the same
parameter struct as Create (`MrvlNvmSubsysCreateCtrlrParams`) rebuilt
from the new spec: subsystem qualified name, PCIe
domain/function/virtual-function identifiers, requested controller id,
max submission/completion queue counts and the queue-depth parameter. -/
theorem claimC1_update_reissues_create_params
    (ext : Externals) (rpc : Rpc) (s : Server) (ctrl vol : NvmeController)
    (mask : Option FieldMask) (am : Bool) (spec : NvmeControllerSpec)
    (key : ObjectKey) (pcie : PciEndpoint) (subsys : NvmeSubsystem)
    (hvu : ext.validateRequiredFieldsUpdate (some ctrl) mask am = none)
    (hrn : ext.resourcenameValidate ctrl.name = none)
    (hex : amLookup s.controllers ctrl.name = some vol)
    (hfm : ext.fieldmaskValidate mask (some ctrl) = none)
    (hspec : ctrl.spec = some spec)
    (hkey : spec.subsystemId = some key)
    (hsub : amLookup s.subsystems key.value = some subsys)
    (hpcie : spec.pcieId = some pcie) :
    (updateNvmeController ext rpc s
        { nvmeController := some ctrl, updateMask := mask, allowMissing := am }).2.2 =
      [BackendCall.createCtrlr "mrvl_nvm_subsys_update_ctrlr"
        (buildCtrlrParams subsys.spec.nqn spec pcie)] := by
  simp only [updateNvmeController, hvu, hrn, hex, hfm, hspec, hkey, hsub, hpcie]
  rcases hr : rpc.createCtrlr "mrvl_nvm_subsys_update_ctrlr"
      (buildCtrlrParams subsys.spec.nqn spec pcie) with e | result
  · rfl
  · by_cases hst : result.status = 0 <;> simp [hst]

/-- Claim C1 counterexample: a concrete Update on an existing controller
with a resolvable subsystem issues exactly one backend call, whose
procedure name is `mrvl_nvm_subsys_update_ctrlr`, which differs from
`mrvl_nvm_subsys_create_ctrlr`. -/
theorem claimC1_counterexample :
    (updateNvmeController extOk rpcOk s1
        { nvmeController := some ctrl0, updateMask := none, allowMissing := false }).2.2 =
      [BackendCall.createCtrlr "mrvl_nvm_subsys_update_ctrlr"
        (buildCtrlrParams subsys0.spec.nqn spec0 pcie0)] ∧
    ("mrvl_nvm_subsys_update_ctrlr" : String) ≠ "mrvl_nvm_subsys_create_ctrlr" :=
  ⟨rfl, by decide⟩

/-- Claim C1 witness: the amended theorem applied at the concrete
fixture run. -/
theorem claimC1_witness :
    (updateNvmeController extOk rpcOk s1
        { nvmeController := some ctrl0, updateMask := none, allowMissing := false }).2.2 =
      [BackendCall.createCtrlr "mrvl_nvm_subsys_update_ctrlr"
        (buildCtrlrParams subsys0.spec.nqn spec0 pcie0)] :=
  claimC1_update_reissues_create_params extOk rpcOk s1 ctrl0 ctrl0 none false
    spec0 { value := "subsys0" } pcie0 subsys0 rfl rfl rfl rfl rfl rfl rfl rfl

/-- Claim C2: every successful List call — for any backend-returned
identifier list, hence for every permutation of it — returns a
controller list sorted ascending by `NvmeControllerId`; moreover the
sorted output is the unique ordered permutation of the built list, so
any correct sort (stable or not) produces exactly this list, and
elements with equal controller ids — which are equal objects here —
trivially keep their relative input order. -/
theorem claimC2_list_sorted_stable (ext : Externals) (rpc : Rpc) (s : Server)
    (req : ListNvmeControllersRequest) (resp : ListNvmeControllersResponse)
    (s' : Server) (tr : List BackendCall)
    (h : listNvmeControllers ext rpc s req = (.ok resp, s', tr)) :
    List.Sorted ctrlLe resp.nvmeControllers ∧
    ∀ l', l'.Perm resp.nvmeControllers → List.Sorted ctrlLe l' →
      l' = resp.nvmeControllers := by
  obtain ⟨size, offset, result, subsys, -, -, -, -, -, hresp, -, -⟩ :=
    listNvmeControllers_ok h
  subst hresp
  refine ⟨sorted_sortNvmeControllers _, ?_⟩
  intro l' hperm hsort
  refine sorted_perm_eq_of_listCtrls ?_ hperm hsort (sorted_sortNvmeControllers _)
  intro c hc
  have hc' := (perm_sortNvmeControllers _).subset hc
  obtain ⟨r, -, rfl⟩ := List.mem_map.mp hc'
  exact ⟨toInt32 r.ctrlrID, rfl⟩

/-- Claim C2 witness: the theorem applied to a concrete successful List
run whose backend returns ids 2, 1, 2 (window of size 2 at offset 0). -/
theorem claimC2_witness :
    List.Sorted ctrlLe [mkListCtrl 1, mkListCtrl 2] ∧
    ∀ l', l'.Perm [mkListCtrl 1, mkListCtrl 2] → List.Sorted ctrlLe l' →
      l' = [mkListCtrl 1, mkListCtrl 2] :=
  claimC2_list_sorted_stable extOk rpcOk s0 reqL
    { nvmeControllers := [mkListCtrl 1, mkListCtrl 2], nextPageToken := "" }
    { subsystems := [("subsys0", subsys0)], controllers := [],
      pagination := [("uuid-fresh-1", 2)] }
    [BackendCall.getCtrlrList "mrvl_nvm_subsys_get_ctrlr_list"
      { subnqn := subsys0.spec.nqn }]
    rfl

/-- Replay half of Create's idempotence: when the canonical name already
resolves in the registry, Create returns the stored object unchanged,
leaves the state untouched and issues no backend call. -/
theorem create_replay (ext : Externals) (rpc : Rpc) (s : Server)
    (req : CreateNvmeControllerRequest) (ctrl : NvmeController)
    (spec : NvmeControllerSpec) (key : ObjectKey) (c0 : NvmeController)
    (hvr : ext.validateRequiredFieldsCreate req.nvmeController req.nvmeControllerId = none)
    (hctrl : req.nvmeController = some ctrl)
    (hspec : ctrl.spec = some spec)
    (hkey : spec.subsystemId = some key)
    (hne : key.value ≠ "")
    (hid : req.nvmeControllerId ≠ "")
    (hus : ext.validateUserSettable req.nvmeControllerId = none)
    (hc0 : amLookup s.controllers (resourceIDToVolumeName req.nvmeControllerId) = some c0) :
    createNvmeController ext rpc s req = (.ok c0, s, []) := by
  have hres : resolveResourceID ext req.nvmeControllerId = .ok req.nvmeControllerId := by
    unfold resolveResourceID
    rw [if_neg hid, hus]
  rw [hctrl] at hvr
  simp only [createNvmeController, hctrl, hvr, hspec, hkey]
  rw [if_neg hne]
  simp only [hres, hc0]

/-- Claim C3: Create is idempotent on the resource name.  First part:
if a controller already exists under the canonical name computed from
the explicit ID, Create returns it unchanged with no backend call and
an unchanged registry.  Second part: after any successful Create, a
second identical call returns the very same object with no further
backend call, and the first call made at most one backend call. -/
theorem claimC3_create_idempotent (ext : Externals) (rpc : Rpc) (s : Server)
    (req : CreateNvmeControllerRequest) (ctrl : NvmeController)
    (spec : NvmeControllerSpec) (key : ObjectKey)
    (hvr : ext.validateRequiredFieldsCreate req.nvmeController req.nvmeControllerId = none)
    (hctrl : req.nvmeController = some ctrl)
    (hspec : ctrl.spec = some spec)
    (hkey : spec.subsystemId = some key)
    (hne : key.value ≠ "")
    (hid : req.nvmeControllerId ≠ "")
    (hus : ext.validateUserSettable req.nvmeControllerId = none) :
    (∀ c0, amLookup s.controllers (resourceIDToVolumeName req.nvmeControllerId) = some c0 →
       createNvmeController ext rpc s req = (.ok c0, s, [])) ∧
    (∀ r1 s1 t1, createNvmeController ext rpc s req = (.ok r1, s1, t1) →
       createNvmeController ext rpc s1 req = (.ok r1, s1, []) ∧ t1.length ≤ 1) := by
  refine ⟨fun c0 hc0 => create_replay ext rpc s req ctrl spec key c0
    hvr hctrl hspec hkey hne hid hus hc0, ?_⟩
  intro r1 s1 t1 h1
  have hres : resolveResourceID ext req.nvmeControllerId = .ok req.nvmeControllerId := by
    unfold resolveResourceID
    rw [if_neg hid, hus]
  have hvr' : ext.validateRequiredFieldsCreate (some ctrl) req.nvmeControllerId = none := by
    rw [← hctrl]
    exact hvr
  rcases hl : amLookup s.controllers (resourceIDToVolumeName req.nvmeControllerId)
    with _ | c0
  · -- fresh path: the first call stores the response under the name
    simp only [createNvmeController, hctrl, hvr', hspec, hkey] at h1
    rw [if_neg hne] at h1
    simp only [hres, hl] at h1
    rcases hsub : amLookup s.subsystems key.value with _ | subsys
    · simp [hsub] at h1
    · simp only [hsub] at h1
      rcases hpc : spec.pcieId with _ | pcie
      · simp [hpc] at h1
      · simp only [hpc] at h1
        rcases hr : rpc.createCtrlr "mrvl_nvm_subsys_create_ctrlr"
            (buildCtrlrParams subsys.spec.nqn spec pcie) with e | result
        · simp [hr] at h1
        · simp only [hr] at h1
          by_cases hst : result.status = 0
          · rw [if_neg (by simp [hst])] at h1
            simp only [Prod.mk.injEq, GoResult.ok.injEq] at h1
            obtain ⟨hr1, hs1, ht1⟩ := h1
            constructor
            · rw [← hs1]
              refine create_replay ext rpc _ req ctrl spec key r1
                hvr hctrl hspec hkey hne hid hus ?_
              rw [← hr1]
              exact amLookup_amInsert_self ..
            · rw [← ht1]
              simp
          · rw [if_pos hst] at h1
            simp at h1
  · -- replay path
    rw [create_replay ext rpc s req ctrl spec key c0
      hvr hctrl hspec hkey hne hid hus hl] at h1
    simp only [Prod.mk.injEq, GoResult.ok.injEq] at h1
    obtain ⟨hr1, hs1, ht1⟩ := h1
    subst hr1 hs1
    rw [← ht1]
    exact ⟨create_replay ext rpc s req ctrl spec key c0
      hvr hctrl hspec hkey hne hid hus hl, by decide⟩

/-- Claim C3 witness: the theorem applied to the fixture state in which
`ctrl0` is stored under the canonical name of ID `ctrl-id-0`. -/
theorem claimC3_witness :
    (∀ c0, amLookup s1.controllers (resourceIDToVolumeName reqC.nvmeControllerId) = some c0 →
       createNvmeController extOk rpcOk s1 reqC = (.ok c0, s1, [])) ∧
    (∀ r1 s1' t1, createNvmeController extOk rpcOk s1 reqC = (.ok r1, s1', t1) →
       createNvmeController extOk rpcOk s1' reqC = (.ok r1, s1', []) ∧ t1.length ≤ 1) :=
  claimC3_create_idempotent extOk rpcOk s1 reqC ctrlC spec0 { value := "subsys0" }
    rfl rfl rfl rfl (by decide) (by decide) rfl

/-- Claim C5: Delete on a name absent from the registry succeeds as a
no-op with no backend call when allow-missing is set, and otherwise
fails with a plain generic error — a `fmt.Errorf` error, not a gRPC
status — leaving the registry untouched; Get and Stats produce the same
generic-error style for a missing controller. -/
theorem claimC5_delete_missing (ext : Externals) (rpc : Rpc) (s : Server)
    (nm gnm : String) (skey : ObjectKey)
    (hvdT : ext.validateRequiredFieldsDelete nm true = none)
    (hvdF : ext.validateRequiredFieldsDelete nm false = none)
    (hrd : ext.resourcenameValidate nm = none)
    (habs : amLookup s.controllers nm = none)
    (hvg : ext.validateRequiredFieldsGet gnm = none)
    (hrg : ext.resourcenameValidate gnm = none)
    (habsg : amLookup s.controllers gnm = none)
    (hvs : ext.validateRequiredFieldsStats (some skey) = none)
    (hrs : ext.resourcenameValidate skey.value = none)
    (habss : amLookup s.controllers skey.value = none) :
    deleteNvmeController ext rpc s { name := nm, allowMissing := true } =
      (.ok (), s, []) ∧
    deleteNvmeController ext rpc s { name := nm, allowMissing := false } =
      (.err (.generic ("error finding controller " ++ nm)), s, []) ∧
    (∀ c m, GoError.generic ("error finding controller " ++ nm) ≠ .grpcStatus c m) ∧
    getNvmeController ext rpc s { name := gnm } =
      (.err (.generic ("error finding controller " ++ gnm)), s, []) ∧
    nvmeControllerStats ext rpc s { id := some skey } =
      (.err (.generic ("error finding controller " ++ skey.value)), s, []) := by
  refine ⟨?_, ?_, ?_, ?_, ?_⟩
  · simp [deleteNvmeController, hvdT, hrd, habs]
  · simp [deleteNvmeController, hvdF, hrd, habs]
  · intro c m
    simp
  · simp [getNvmeController, hvg, hrg, habsg]
  · simp [nvmeControllerStats, hvs, hrs, habss]

/-- Claim C5 witness: the theorem applied to the empty registry with
name `nope`. -/
theorem claimC5_witness :
    deleteNvmeController extOk rpcOk s0 { name := "nope", allowMissing := true } =
      (.ok (), s0, []) ∧
    deleteNvmeController extOk rpcOk s0 { name := "nope", allowMissing := false } =
      (.err (.generic ("error finding controller " ++ "nope")), s0, []) ∧
    (∀ c m, GoError.generic ("error finding controller " ++ "nope") ≠ .grpcStatus c m) ∧
    getNvmeController extOk rpcOk s0 { name := "nope" } =
      (.err (.generic ("error finding controller " ++ "nope")), s0, []) ∧
    nvmeControllerStats extOk rpcOk s0 { id := some { value := "nope" } } =
      (.err (.generic ("error finding controller " ++ "nope")), s0, []) :=
  claimC5_delete_missing extOk rpcOk s0 "nope" "nope" { value := "nope" }
    rfl rfl rfl rfl rfl rfl rfl rfl rfl rfl

/-- Claim C6 (amended): a Create on a fresh canonical name, and an
Update, Get or Stats on an existing controller, whose subsystem
reference does not resolve, fail `NotFound` naming the missing key with
no backend call and an unchanged registry.  (As stated the claim is
false for Create: when the canonical name already exists, the
idempotent replay returns the stored object without resolving the
subsystem — see the counterexample.) -/
theorem claimC6_subsys_notfound (ext : Externals) (rpc : Rpc) (s : Server)
    (cctrl : NvmeController) (cid : String) (cspec : NvmeControllerSpec)
    (ckey : ObjectKey) (rid : String)
    (uctrl vol : NvmeController) (mask : Option FieldMask) (am : Bool)
    (uspec : NvmeControllerSpec) (ukey : ObjectKey)
    (gnm : String) (gctrl : NvmeController) (gspec : NvmeControllerSpec)
    (gkey : ObjectKey)
    (skey : ObjectKey) (sctrl : NvmeController) (sspec : NvmeControllerSpec)
    (skey2 : ObjectKey)
    (hcv : ext.validateRequiredFieldsCreate (some cctrl) cid = none)
    (hcspec : cctrl.spec = some cspec)
    (hckey : cspec.subsystemId = some ckey)
    (hcne : ckey.value ≠ "")
    (hcres : resolveResourceID ext cid = .ok rid)
    (hcfresh : amLookup s.controllers (resourceIDToVolumeName rid) = none)
    (hcnosub : amLookup s.subsystems ckey.value = none)
    (huv : ext.validateRequiredFieldsUpdate (some uctrl) mask am = none)
    (hurn : ext.resourcenameValidate uctrl.name = none)
    (huex : amLookup s.controllers uctrl.name = some vol)
    (hufm : ext.fieldmaskValidate mask (some uctrl) = none)
    (huspec : uctrl.spec = some uspec)
    (hukey : uspec.subsystemId = some ukey)
    (hunosub : amLookup s.subsystems ukey.value = none)
    (hgv : ext.validateRequiredFieldsGet gnm = none)
    (hgrn : ext.resourcenameValidate gnm = none)
    (hgex : amLookup s.controllers gnm = some gctrl)
    (hgspec : gctrl.spec = some gspec)
    (hgkey : gspec.subsystemId = some gkey)
    (hgnosub : amLookup s.subsystems gkey.value = none)
    (hsv : ext.validateRequiredFieldsStats (some skey) = none)
    (hsrn : ext.resourcenameValidate skey.value = none)
    (hsex : amLookup s.controllers skey.value = some sctrl)
    (hsspec : sctrl.spec = some sspec)
    (hskey : sspec.subsystemId = some skey2)
    (hsnosub : amLookup s.subsystems skey2.value = none) :
    createNvmeController ext rpc s
        { nvmeController := some cctrl, nvmeControllerId := cid } =
      (.err (.grpcStatus .notFound ("unable to find key " ++ ckey.value)), s, []) ∧
    updateNvmeController ext rpc s
        { nvmeController := some uctrl, updateMask := mask, allowMissing := am } =
      (.err (.grpcStatus .notFound ("unable to find key " ++ ukey.value)), s, []) ∧
    getNvmeController ext rpc s { name := gnm } =
      (.err (.grpcStatus .notFound ("unable to find key " ++ gkey.value)), s, []) ∧
    nvmeControllerStats ext rpc s { id := some skey } =
      (.err (.grpcStatus .notFound ("unable to find key " ++ skey2.value)), s, []) := by
  refine ⟨?_, ?_, ?_, ?_⟩
  · simp only [createNvmeController, hcv, hcspec, hckey]
    rw [if_neg hcne]
    simp only [hcres, hcfresh, hcnosub]
  · simp [updateNvmeController, huv, hurn, huex, hufm, huspec, hukey, hunosub]
  · simp [getNvmeController, hgv, hgrn, hgex, hgspec, hgkey, hgnosub]
  · simp [nvmeControllerStats, hsv, hsrn, hsex, hsspec, hskey, hsnosub]

/-- Claim C6 counterexample: in a state whose subsystem map is empty, a
Create whose subsystem reference `ghost` does not resolve but whose
canonical name is already registered succeeds with the stored object —
it does not fail `NotFound`. -/
theorem claimC6_counterexample :
    createNvmeController extOk rpcOk sNoSub reqCGhost = (.ok ctrl0, sNoSub, []) ∧
    amLookup sNoSub.subsystems "ghost" = none ∧
    reqCGhost.nvmeController =
      some { name := "", spec := some specGhost, status := none } ∧
    specGhost.subsystemId = some { value := "ghost" } :=
  ⟨rfl, rfl, rfl, rfl⟩

/-- Claim C6 witness: the amended theorem applied in a state with an
empty subsystem map, a stored controller referencing `ghost`, and a
fresh create ID. -/
theorem claimC6_witness :
    createNvmeController extOk rpcOk sNoSub
        { nvmeController := some { name := "", spec := some specGhost, status := none },
          nvmeControllerId := "ctrl-id-9" } =
      (.err (.grpcStatus .notFound ("unable to find key " ++ "ghost")), sNoSub, []) ∧
    updateNvmeController extOk rpcOk sNoSub
        { nvmeController := some uctrlGhostNoPcie, updateMask := none,
          allowMissing := false } =
      (.err (.grpcStatus .notFound ("unable to find key " ++ "ghost")), sNoSub, []) ∧
    getNvmeController extOk rpcOk sNoSub { name := ctrl0name } =
      (.err (.grpcStatus .notFound ("unable to find key " ++ "subsys0")), sNoSub, []) ∧
    nvmeControllerStats extOk rpcOk sNoSub { id := some { value := ctrl0name } } =
      (.err (.grpcStatus .notFound ("unable to find key " ++ "subsys0")), sNoSub, []) :=
  claimC6_subsys_notfound extOk rpcOk sNoSub
    { name := "", spec := some specGhost, status := none } "ctrl-id-9" specGhost
    { value := "ghost" } "ctrl-id-9"
    uctrlGhostNoPcie ctrl0 none false { specGhost with pcieId := none } { value := "ghost" }
    ctrl0name ctrl0 spec0 { value := "subsys0" }
    { value := ctrl0name } ctrl0 spec0 { value := "subsys0" }
    rfl rfl rfl (by decide) rfl rfl rfl
    rfl rfl rfl rfl rfl rfl rfl
    rfl rfl rfl rfl rfl rfl
    rfl rfl rfl rfl rfl rfl

/-- Claim C8: a successful Stats call maps each backend counter
one-to-one into the response — NumReadBytes to ReadBytesCount,
NumReadCmds to ReadOpsCount, NumWriteBytes to WriteBytesCount,
NumWriteCmds to WriteOpsCount, TotalReadLatencyInUs to
ReadLatencyTicks, TotalWriteLatencyInUs to WriteLatencyTicks — each
value truncated to 32 bits (`toInt32`) with no other transformation. -/
theorem claimC8_stats_mapping (ext : Externals) (rpc : Rpc) (s : Server)
    (key : ObjectKey) (controller : NvmeController) (cspec : NvmeControllerSpec)
    (skey : ObjectKey) (subsys : NvmeSubsystem)
    (result : MrvlNvmGetCtrlrStatsResult)
    (hv : ext.validateRequiredFieldsStats (some key) = none)
    (hrn : ext.resourcenameValidate key.value = none)
    (hex : amLookup s.controllers key.value = some controller)
    (hspec : controller.spec = some cspec)
    (hskey : cspec.subsystemId = some skey)
    (hsub : amLookup s.subsystems skey.value = some subsys)
    (hres : rpc.getCtrlrStats "mrvl_nvm_get_ctrlr_stats"
        { subnqn := subsys.spec.nqn, ctrlrID := cspec.nvmeControllerId } = .ok result)
    (hst : result.status = 0) :
    nvmeControllerStats ext rpc s { id := some key } =
      (.ok { stats :=
        { readBytesCount := toInt32 result.numReadBytes
          readOpsCount := toInt32 result.numReadCmds
          writeBytesCount := toInt32 result.numWriteBytes
          writeOpsCount := toInt32 result.numWriteCmds
          readLatencyTicks := toInt32 result.totalReadLatencyInUs
          writeLatencyTicks := toInt32 result.totalWriteLatencyInUs } },
       s,
       [BackendCall.getCtrlrStats "mrvl_nvm_get_ctrlr_stats"
         { subnqn := subsys.spec.nqn, ctrlrID := cspec.nvmeControllerId }]) := by
  simp only [nvmeControllerStats, hv, hrn, hex, hspec, hskey, hsub, hres]
  rw [if_neg (by simp [hst])]

/-- Claim C8 witness: the spec scenario — the backend returns
NumReadBytes 1024 and NumReadCmds 4, and the response carries
ReadBytesCount 1024 and ReadOpsCount 4. -/
theorem claimC8_witness :
    nvmeControllerStats extOk rpcOk s1 { id := some { value := ctrl0name } } =
      (.ok { stats :=
        { readBytesCount := 1024
          readOpsCount := 4
          writeBytesCount := 8
          writeOpsCount := 2
          readLatencyTicks := 10
          writeLatencyTicks := 20 } },
       s1,
       [BackendCall.getCtrlrStats "mrvl_nvm_get_ctrlr_stats"
         { subnqn := subsys0.spec.nqn, ctrlrID := spec0.nvmeControllerId }]) :=
  claimC8_stats_mapping extOk rpcOk s1 { value := ctrl0name } ctrl0 spec0
    { value := "subsys0" } subsys0
    { status := 0
      numReadBytes := 1024
      numReadCmds := 4
      numWriteBytes := 8
      numWriteCmds := 2
      totalReadLatencyInUs := 10
      totalWriteLatencyInUs := 20 }
    rfl rfl rfl rfl rfl rfl rfl rfl

/-- Claim C9: a Create whose controller spec is nil, whose subsystem
reference field is nil, or whose subsystem reference value is the empty
string fails with `InvalidArgument`, makes no backend call, and leaves
the registry unchanged. -/
theorem claimC9_create_invalid_subsys (ext : Externals) (rpc : Rpc) (s : Server)
    (req : CreateNvmeControllerRequest) (ctrl : NvmeController)
    (hvr : ext.validateRequiredFieldsCreate req.nvmeController req.nvmeControllerId = none)
    (hctrl : req.nvmeController = some ctrl)
    (hbad : ctrl.spec = none ∨
      (∃ spec, ctrl.spec = some spec ∧ spec.subsystemId = none) ∨
      (∃ spec key, ctrl.spec = some spec ∧ spec.subsystemId = some key ∧
        key.value = "")) :
    createNvmeController ext rpc s req =
      (.err (.grpcStatus .invalidArgument "invalid input subsystem parameters"), s, []) := by
  have hvr' : ext.validateRequiredFieldsCreate (some ctrl) req.nvmeControllerId = none := by
    rw [← hctrl]
    exact hvr
  rcases hbad with hnone | ⟨spec, hspec, hkey⟩ | ⟨spec, key, hspec, hkey, hval⟩
  · simp [createNvmeController, hctrl, hvr', hnone, invalidSubsysErr]
  · simp [createNvmeController, hctrl, hvr', hspec, hkey, invalidSubsysErr]
  · simp [createNvmeController, hctrl, hvr', hspec, hkey, hval, invalidSubsysErr]

/-- Claim C9 witness: a concrete Create with a nil spec fails
`InvalidArgument` with no backend call and an unchanged registry. -/
theorem claimC9_witness :
    createNvmeController extOk rpcOk s0
      { nvmeController := some { name := "", spec := none, status := none },
        nvmeControllerId := "ctrl-id-0" } =
      (.err (.grpcStatus .invalidArgument "invalid input subsystem parameters"), s0, []) :=
  claimC9_create_invalid_subsys extOk rpcOk s0
    { nvmeController := some { name := "", spec := none, status := none },
      nvmeControllerId := "ctrl-id-0" }
    { name := "", spec := none, status := none }
    rfl rfl (Or.inl rfl)

/-- The has-more flag of the pagination window is set exactly when
elements remain beyond `offset + size`. -/
theorem limitPagination_hasMore (l : List α) (offset size : Int) :
    (limitPagination l offset size).2 = true ↔
      offset + size < (l.length : Int) := by
  simp [limitPagination]

/-- Claim C7: for every successful List call, the returned controllers
are exactly (as a multiset of ids) the backend-returned identifiers
restricted to the window [offset, offset+size); the fresh token is
recorded with value offset+size in the cursor table exactly when
elements remain beyond the window; and the returned next-page token is
the empty string (the Go response literal never sets `NextPageToken`,
which the claim's empty-token statement for the no-more-elements case
is consistent with). -/
theorem claimC7_pagination (ext : Externals) (rpc : Rpc) (s : Server)
    (req : ListNvmeControllersRequest) (resp : ListNvmeControllersResponse)
    (s' : Server) (tr : List BackendCall)
    (h : listNvmeControllers ext rpc s req = (.ok resp, s', tr)) :
    ∃ size offset result subsys,
      ext.extractPagination req.pageSize req.pageToken s.pagination =
        .ok (size, offset) ∧
      amLookup s.subsystems req.parent = some subsys ∧
      rpc.getCtrlrList "mrvl_nvm_subsys_get_ctrlr_list"
        { subnqn := subsys.spec.nqn } = .ok result ∧
      result.status = 0 ∧
      (resp.nvmeControllers.map ctrlKey).Perm
        ((limitPagination result.ctrlrIDList offset size).1.map
          (fun r => toInt32 r.ctrlrID)) ∧
      ((limitPagination result.ctrlrIDList offset size).2 = true ↔
        offset + size < (result.ctrlrIDList.length : Int)) ∧
      ((limitPagination result.ctrlrIDList offset size).2 = true →
        s'.pagination = amInsert s.pagination ext.newUUID (offset + size)) ∧
      ((limitPagination result.ctrlrIDList offset size).2 = false → s' = s) ∧
      resp.nextPageToken = "" := by
  obtain ⟨size, offset, result, subsys, -, hp, hsub, hres, hst, hresp, hs', htr⟩ :=
    listNvmeControllers_ok h
  subst hresp
  subst hs'
  refine ⟨size, offset, result, subsys, hp, hsub, hres, hst, ?_, ?_, ?_, ?_, rfl⟩
  · have hperm := (perm_sortNvmeControllers
      ((limitPagination result.ctrlrIDList offset size).1.map
        (fun r => mkListCtrl (toInt32 r.ctrlrID)))).map ctrlKey
    simpa [List.map_map, Function.comp] using hperm
  · exact limitPagination_hasMore result.ctrlrIDList offset size
  · intro hb
    rw [if_pos hb]
  · intro hb
    rw [if_neg (by simp [hb])]

/-- Claim C7 witness: the concrete run with backend ids 2, 1, 2 and a
window of size 2 at offset 0 — more elements remain, so the resume
offset 2 is recorded under the fresh token and the returned token is
empty. -/
theorem claimC7_witness :
    ∃ size offset result subsys,
      extOk.extractPagination reqL.pageSize reqL.pageToken s0.pagination =
        .ok (size, offset) ∧
      amLookup s0.subsystems reqL.parent = some subsys ∧
      rpcOk.getCtrlrList "mrvl_nvm_subsys_get_ctrlr_list"
        { subnqn := subsys.spec.nqn } = .ok result ∧
      result.status = 0 ∧
      (([mkListCtrl 1, mkListCtrl 2] : List NvmeController).map ctrlKey).Perm
        ((limitPagination result.ctrlrIDList offset size).1.map
          (fun r => toInt32 r.ctrlrID)) ∧
      ((limitPagination result.ctrlrIDList offset size).2 = true ↔
        offset + size < (result.ctrlrIDList.length : Int)) ∧
      ((limitPagination result.ctrlrIDList offset size).2 = true →
        ({ subsystems := [("subsys0", subsys0)], controllers := [],
           pagination := [("uuid-fresh-1", 2)] } : Server).pagination =
          amInsert s0.pagination extOk.newUUID (offset + size)) ∧
      ((limitPagination result.ctrlrIDList offset size).2 = false →
        ({ subsystems := [("subsys0", subsys0)], controllers := [],
           pagination := [("uuid-fresh-1", 2)] } : Server) = s0) ∧
      ("" : String) = "" :=
  claimC7_pagination extOk rpcOk s0 reqL
    { nvmeControllers := [mkListCtrl 1, mkListCtrl 2], nextPageToken := "" }
    { subsystems := [("subsys0", subsys0)], controllers := [],
      pagination := [("uuid-fresh-1", 2)] }
    [BackendCall.getCtrlrList "mrvl_nvm_subsys_get_ctrlr_list"
      { subnqn := subsys0.spec.nqn }]
    rfl

/-- Claim C10 (amended): once validations pass, Create reaches the
unguarded `PcieId` dereference — and so panics on a nil `PcieId` — only
on a fresh canonical name with a resolvable subsystem (the idempotent
replay path returns early, see the counterexample); Update on an
existing controller panics on a nil spec or nil subsystem reference,
and panics on a nil `PcieId` provided the subsystem reference resolves
(otherwise it fails `NotFound` first).  The embedded functions are
total only under the precondition that these fields are non-nil. -/
theorem claimC10_nil_deref (ext : Externals) (rpc : Rpc) (s : Server) :
    (∀ ctrl cid spec key rid subsys,
       ext.validateRequiredFieldsCreate (some ctrl) cid = none →
       ctrl.spec = some spec → spec.subsystemId = some key → key.value ≠ "" →
       resolveResourceID ext cid = .ok rid →
       amLookup s.controllers (resourceIDToVolumeName rid) = none →
       amLookup s.subsystems key.value = some subsys →
       spec.pcieId = none →
       createNvmeController ext rpc s
           { nvmeController := some ctrl, nvmeControllerId := cid } =
         (.crash nilDeref, s, [])) ∧
    (∀ ctrl mask am vol,
       ext.validateRequiredFieldsUpdate (some ctrl) mask am = none →
       ext.resourcenameValidate ctrl.name = none →
       amLookup s.controllers ctrl.name = some vol →
       ext.fieldmaskValidate mask (some ctrl) = none →
       (ctrl.spec = none →
          updateNvmeController ext rpc s
              { nvmeController := some ctrl, updateMask := mask,
                allowMissing := am } =
            (.crash nilDeref, s, [])) ∧
       (∀ spec, ctrl.spec = some spec → spec.subsystemId = none →
          updateNvmeController ext rpc s
              { nvmeController := some ctrl, updateMask := mask,
                allowMissing := am } =
            (.crash nilDeref, s, [])) ∧
       (∀ spec key subsys, ctrl.spec = some spec →
          spec.subsystemId = some key →
          amLookup s.subsystems key.value = some subsys →
          spec.pcieId = none →
          updateNvmeController ext rpc s
              { nvmeController := some ctrl, updateMask := mask,
                allowMissing := am } =
            (.crash nilDeref, s, []))) := by
  constructor
  · intro ctrl cid spec key rid subsys hcv hspec hkey hne hres hfresh hsub hpcie
    simp only [createNvmeController, hcv, hspec, hkey]
    rw [if_neg hne]
    simp only [hres, hfresh, hsub, hpcie]
  · intro ctrl mask am vol huv hurn huex hufm
    refine ⟨?_, ?_, ?_⟩
    · intro hnone
      simp [updateNvmeController, huv, hurn, huex, hufm, hnone]
    · intro spec hspec hkey
      simp [updateNvmeController, huv, hurn, huex, hufm, hspec, hkey]
    · intro spec key subsys hspec hkey hsub hpcie
      simp [updateNvmeController, huv, hurn, huex, hufm, hspec, hkey, hsub, hpcie]

/-- Claim C10 counterexample: with an existing subsystem and a nil
`PcieId`, a Create whose canonical name is already registered returns
the stored object — no nil dereference is reached; and an Update on an
existing controller whose payload has a nil `PcieId` but a dangling
subsystem reference fails `NotFound` — again no nil dereference. -/
theorem claimC10_counterexample :
    createNvmeController extOk rpcOk s1 reqCNoPcie = (.ok ctrl0, s1, []) ∧
    updateNvmeController extOk rpcOk sNoSub
        { nvmeController := some uctrlGhostNoPcie, updateMask := none,
          allowMissing := false } =
      (.err (.grpcStatus .notFound ("unable to find key " ++ "ghost")), sNoSub, []) :=
  ⟨rfl, rfl⟩

/-- Claim C10 witness: the amended theorem applied at concrete inputs —
Create on a fresh name with nil `PcieId` panics, and Update on the
stored controller panics for a nil spec, nil subsystem reference, or
nil `PcieId` with a resolvable subsystem. -/
theorem claimC10_witness :
    createNvmeController extOk rpcOk s1 reqCNoPcieFresh =
      (.crash nilDeref, s1, []) ∧
    updateNvmeController extOk rpcOk s1
        { nvmeController := some uctrlNilSpec, updateMask := none,
          allowMissing := false } = (.crash nilDeref, s1, []) ∧
    updateNvmeController extOk rpcOk s1
        { nvmeController := some uctrlNilKey, updateMask := none,
          allowMissing := false } = (.crash nilDeref, s1, []) ∧
    updateNvmeController extOk rpcOk s1
        { nvmeController := some uctrlNilPcie, updateMask := none,
          allowMissing := false } = (.crash nilDeref, s1, []) := by
  refine ⟨?_, ?_, ?_, ?_⟩
  · exact (claimC10_nil_deref extOk rpcOk s1).1
      { name := "", spec := some specNoPcie, status := none } "ctrl-id-9"
      specNoPcie { value := "subsys0" } "ctrl-id-9" subsys0
      rfl rfl rfl (by decide) rfl rfl rfl rfl
  · exact ((claimC10_nil_deref extOk rpcOk s1).2 uctrlNilSpec none false ctrl0
      rfl rfl rfl rfl).1 rfl
  · exact ((claimC10_nil_deref extOk rpcOk s1).2 uctrlNilKey none false ctrl0
      rfl rfl rfl rfl).2.1 { spec0 with subsystemId := none } rfl rfl
  · exact ((claimC10_nil_deref extOk rpcOk s1).2 uctrlNilPcie none false ctrl0
      rfl rfl rfl rfl).2.2 specNoPcie { value := "subsys0" } subsys0
      rfl rfl rfl rfl

/-- Create leaves the state unchanged on every failing outcome. -/
theorem create_fails_clean (ext : Externals) (rpc : Rpc) (s : Server)
    (req : CreateNvmeControllerRequest) :
    FailsClean (createNvmeController ext rpc s req) s := by
  unfold FailsClean
  simp only [createNvmeController]
  repeat' split
  all_goals simp [GoResult.isFailure]

/-- Delete leaves the state unchanged on every failing outcome. -/
theorem delete_fails_clean (ext : Externals) (rpc : Rpc) (s : Server)
    (req : DeleteNvmeControllerRequest) :
    FailsClean (deleteNvmeController ext rpc s req) s := by
  unfold FailsClean
  simp only [deleteNvmeController]
  repeat' split
  all_goals simp [GoResult.isFailure]

/-- Update leaves the state unchanged on every failing outcome. -/
theorem update_fails_clean (ext : Externals) (rpc : Rpc) (s : Server)
    (req : UpdateNvmeControllerRequest) :
    FailsClean (updateNvmeController ext rpc s req) s := by
  unfold FailsClean
  simp only [updateNvmeController]
  repeat' split
  all_goals simp [GoResult.isFailure]

/-- List leaves the state unchanged on every failing outcome. -/
theorem list_fails_clean (ext : Externals) (rpc : Rpc) (s : Server)
    (req : ListNvmeControllersRequest) :
    FailsClean (listNvmeControllers ext rpc s req) s := by
  unfold FailsClean
  simp only [listNvmeControllers]
  repeat' split
  all_goals simp [GoResult.isFailure]

/-- Get leaves the state unchanged on every failing outcome. -/
theorem get_fails_clean (ext : Externals) (rpc : Rpc) (s : Server)
    (req : GetNvmeControllerRequest) :
    FailsClean (getNvmeController ext rpc s req) s := by
  unfold FailsClean
  simp only [getNvmeController]
  repeat' split
  all_goals simp [GoResult.isFailure]

/-- Stats leaves the state unchanged on every failing outcome. -/
theorem stats_fails_clean (ext : Externals) (rpc : Rpc) (s : Server)
    (req : NvmeControllerStatsRequest) :
    FailsClean (nvmeControllerStats ext rpc s req) s := by
  unfold FailsClean
  simp only [nvmeControllerStats]
  repeat' split
  all_goals simp [GoResult.isFailure]

/-- Against a backend reporting non-zero status, any Create run that
issued a backend call returns `InvalidArgument` with the state
unchanged. -/
theorem create_nonzero (ext : Externals) (rpc : Rpc) (s : Server)
    (req : CreateNvmeControllerRequest) (hnz : NonzeroStatus rpc) :
    (createNvmeController ext rpc s req).2.2 ≠ [] →
    (∃ msg, (createNvmeController ext rpc s req).1 =
       .err (.grpcStatus .invalidArgument msg)) ∧
    (createNvmeController ext rpc s req).2.1 = s := by
  simp only [createNvmeController]
  repeat' split
  all_goals intro hne
  all_goals first
    | exact absurd rfl hne
    | exact ⟨⟨_, rfl⟩, rfl⟩
    | (exfalso
       rename_i heq
       obtain ⟨r, hr, -⟩ := hnz.1 _ _
       rw [hr] at heq
       exact Except.noConfusion heq)
    | (exfalso
       rename_i heq hif
       obtain ⟨r, hr, hs0⟩ := hnz.1 _ _
       rw [hr] at heq
       injection heq with h2
       subst h2
       exact absurd hs0 hif)

/-- Against a backend reporting non-zero status, any Delete run that
issued a backend call returns `InvalidArgument` with the state
unchanged. -/
theorem delete_nonzero (ext : Externals) (rpc : Rpc) (s : Server)
    (req : DeleteNvmeControllerRequest) (hnz : NonzeroStatus rpc) :
    (deleteNvmeController ext rpc s req).2.2 ≠ [] →
    (∃ msg, (deleteNvmeController ext rpc s req).1 =
       .err (.grpcStatus .invalidArgument msg)) ∧
    (deleteNvmeController ext rpc s req).2.1 = s := by
  simp only [deleteNvmeController]
  repeat' split
  all_goals intro hne
  all_goals first
    | exact absurd rfl hne
    | exact ⟨⟨_, rfl⟩, rfl⟩
    | (exfalso
       rename_i heq
       obtain ⟨r, hr, -⟩ := hnz.2.1 _ _
       rw [hr] at heq
       exact Except.noConfusion heq)
    | (exfalso
       rename_i heq hif
       obtain ⟨r, hr, hs0⟩ := hnz.2.1 _ _
       rw [hr] at heq
       injection heq with h2
       subst h2
       exact absurd hs0 hif)

/-- Against a backend reporting non-zero status, any Update run that
issued a backend call returns `InvalidArgument` with the state
unchanged. -/
theorem update_nonzero (ext : Externals) (rpc : Rpc) (s : Server)
    (req : UpdateNvmeControllerRequest) (hnz : NonzeroStatus rpc) :
    (updateNvmeController ext rpc s req).2.2 ≠ [] →
    (∃ msg, (updateNvmeController ext rpc s req).1 =
       .err (.grpcStatus .invalidArgument msg)) ∧
    (updateNvmeController ext rpc s req).2.1 = s := by
  simp only [updateNvmeController]
  repeat' split
  all_goals intro hne
  all_goals first
    | exact absurd rfl hne
    | exact ⟨⟨_, rfl⟩, rfl⟩
    | (exfalso
       rename_i heq
       obtain ⟨r, hr, -⟩ := hnz.1 _ _
       rw [hr] at heq
       exact Except.noConfusion heq)
    | (exfalso
       rename_i heq hif
       obtain ⟨r, hr, hs0⟩ := hnz.1 _ _
       rw [hr] at heq
       injection heq with h2
       subst h2
       exact absurd hs0 hif)

/-- Against a backend reporting non-zero status, any List run that
issued a backend call returns `InvalidArgument` with the state
unchanged. -/
theorem list_nonzero (ext : Externals) (rpc : Rpc) (s : Server)
    (req : ListNvmeControllersRequest) (hnz : NonzeroStatus rpc) :
    (listNvmeControllers ext rpc s req).2.2 ≠ [] →
    (∃ msg, (listNvmeControllers ext rpc s req).1 =
       .err (.grpcStatus .invalidArgument msg)) ∧
    (listNvmeControllers ext rpc s req).2.1 = s := by
  simp only [listNvmeControllers]
  repeat' split
  all_goals intro hne
  all_goals first
    | exact absurd rfl hne
    | exact ⟨⟨_, rfl⟩, rfl⟩
    | (exfalso
       rename_i heq
       obtain ⟨r, hr, -⟩ := hnz.2.2.1 _ _
       rw [hr] at heq
       exact Except.noConfusion heq)
    | (exfalso
       rename_i heq hif
       obtain ⟨r, hr, hs0⟩ := hnz.2.2.1 _ _
       rw [hr] at heq
       injection heq with h2
       subst h2
       exact absurd hs0 hif)
    | (exfalso
       rename_i heq hst hif
       obtain ⟨r, hr, hs0⟩ := hnz.2.2.1 _ _
       rw [hr] at heq
       injection heq with h2
       subst h2
       exact absurd hs0 hst)

/-- Against a backend reporting non-zero status, any Get run that
issued a backend call returns `InvalidArgument` with the state
unchanged. -/
theorem get_nonzero (ext : Externals) (rpc : Rpc) (s : Server)
    (req : GetNvmeControllerRequest) (hnz : NonzeroStatus rpc) :
    (getNvmeController ext rpc s req).2.2 ≠ [] →
    (∃ msg, (getNvmeController ext rpc s req).1 =
       .err (.grpcStatus .invalidArgument msg)) ∧
    (getNvmeController ext rpc s req).2.1 = s := by
  simp only [getNvmeController]
  repeat' split
  all_goals intro hne
  all_goals first
    | exact absurd rfl hne
    | exact ⟨⟨_, rfl⟩, rfl⟩
    | (exfalso
       rename_i heq
       obtain ⟨r, hr, -⟩ := hnz.2.2.2.1 _ _
       rw [hr] at heq
       exact Except.noConfusion heq)
    | (exfalso
       rename_i heq hif
       obtain ⟨r, hr, hs0⟩ := hnz.2.2.2.1 _ _
       rw [hr] at heq
       injection heq with h2
       subst h2
       exact absurd hs0 hif)

/-- Against a backend reporting non-zero status, any Stats run that
issued a backend call returns `InvalidArgument` with the state
unchanged. -/
theorem stats_nonzero (ext : Externals) (rpc : Rpc) (s : Server)
    (req : NvmeControllerStatsRequest) (hnz : NonzeroStatus rpc) :
    (nvmeControllerStats ext rpc s req).2.2 ≠ [] →
    (∃ msg, (nvmeControllerStats ext rpc s req).1 =
       .err (.grpcStatus .invalidArgument msg)) ∧
    (nvmeControllerStats ext rpc s req).2.1 = s := by
  simp only [nvmeControllerStats]
  repeat' split
  all_goals intro hne
  all_goals first
    | exact absurd rfl hne
    | exact ⟨⟨_, rfl⟩, rfl⟩
    | (exfalso
       rename_i heq
       obtain ⟨r, hr, -⟩ := hnz.2.2.2.2 _ _
       rw [hr] at heq
       exact Except.noConfusion heq)
    | (exfalso
       rename_i heq hif
       obtain ⟨r, hr, hs0⟩ := hnz.2.2.2.2 _ _
       rw [hr] at heq
       injection heq with h2
       subst h2
       exact absurd hs0 hif)

/-- Claim C4: atomicity on failure.  Every failing execution of any of
the six operations — validation error, missing resource, missing
subsystem, transport error, or non-zero backend status — leaves the
server state exactly as it was (so registry writes happen only on a
backend response with status zero); and against a backend whose every
procedure reports a non-zero status, any run that issued a backend call
returns `InvalidArgument` and leaves the state unchanged. -/
theorem claimC4_atomic_failure (ext : Externals) (rpc : Rpc) (s : Server) :
    (∀ req, FailsClean (createNvmeController ext rpc s req) s) ∧
    (∀ req, FailsClean (deleteNvmeController ext rpc s req) s) ∧
    (∀ req, FailsClean (updateNvmeController ext rpc s req) s) ∧
    (∀ req, FailsClean (listNvmeControllers ext rpc s req) s) ∧
    (∀ req, FailsClean (getNvmeController ext rpc s req) s) ∧
    (∀ req, FailsClean (nvmeControllerStats ext rpc s req) s) ∧
    (NonzeroStatus rpc →
      (∀ req, (createNvmeController ext rpc s req).2.2 ≠ [] →
        (∃ msg, (createNvmeController ext rpc s req).1 =
           .err (.grpcStatus .invalidArgument msg)) ∧
        (createNvmeController ext rpc s req).2.1 = s) ∧
      (∀ req, (deleteNvmeController ext rpc s req).2.2 ≠ [] →
        (∃ msg, (deleteNvmeController ext rpc s req).1 =
           .err (.grpcStatus .invalidArgument msg)) ∧
        (deleteNvmeController ext rpc s req).2.1 = s) ∧
      (∀ req, (updateNvmeController ext rpc s req).2.2 ≠ [] →
        (∃ msg, (updateNvmeController ext rpc s req).1 =
           .err (.grpcStatus .invalidArgument msg)) ∧
        (updateNvmeController ext rpc s req).2.1 = s) ∧
      (∀ req, (listNvmeControllers ext rpc s req).2.2 ≠ [] →
        (∃ msg, (listNvmeControllers ext rpc s req).1 =
           .err (.grpcStatus .invalidArgument msg)) ∧
        (listNvmeControllers ext rpc s req).2.1 = s) ∧
      (∀ req, (getNvmeController ext rpc s req).2.2 ≠ [] →
        (∃ msg, (getNvmeController ext rpc s req).1 =
           .err (.grpcStatus .invalidArgument msg)) ∧
        (getNvmeController ext rpc s req).2.1 = s) ∧
      (∀ req, (nvmeControllerStats ext rpc s req).2.2 ≠ [] →
        (∃ msg, (nvmeControllerStats ext rpc s req).1 =
           .err (.grpcStatus .invalidArgument msg)) ∧
        (nvmeControllerStats ext rpc s req).2.1 = s)) :=
  ⟨fun req => create_fails_clean ext rpc s req,
   fun req => delete_fails_clean ext rpc s req,
   fun req => update_fails_clean ext rpc s req,
   fun req => list_fails_clean ext rpc s req,
   fun req => get_fails_clean ext rpc s req,
   fun req => stats_fails_clean ext rpc s req,
   fun hnz =>
     ⟨fun req => create_nonzero ext rpc s req hnz,
      fun req => delete_nonzero ext rpc s req hnz,
      fun req => update_nonzero ext rpc s req hnz,
      fun req => list_nonzero ext rpc s req hnz,
      fun req => get_nonzero ext rpc s req hnz,
      fun req => stats_nonzero ext rpc s req hnz⟩⟩
